import Mathlib

set_option maxRecDepth 8192

/-!
Verification of the translation gateway in this repository.

The repository contains three variants of the same HTTP translation
service:

* a production Cloudflare worker (first module of `src/Index.js`, lines 1-175),
* a debug-instrumented worker (second module of `src/Index.js`, lines 176-411),
* an Express server (`src/server.js`).

This file gives a shallow embedding of the three request handlers and
proves properties of that embedding.  Modelling decisions:

* A request body is either unparseable JSON (`BodyParse.failed`, carrying
  the parse error message) or a parsed object with the two optional string
  fields `text` and `targetLanguage`.  JavaScript truthiness of such a
  field (the `!text` tests in the source) is `truthy`: the field is
  present and not the empty string.
* The outbound generative-AI client is external library code; its
  behaviour is an oracle `ProviderBehavior`: either the client
  constructor / `getGenerativeModel` throws (`initFailure`), or
  `generateContent` (or reading its response) throws (`generateFailure`),
  or generation succeeds with a raw text (`success`).  In the real
  `GoogleGenerativeAI` library the constructor stores the key without
  validating it, so a missing or bad key surfaces as a `generateFailure`.
* `HandlerResult.sentPrompt` records the prompt string passed to
  `generateContent`; it is `none` exactly when `generateContent` was
  never invoked (no outbound generation call was made).
* Response bodies are modelled structurally with the fields the public
  contract names (`translation`, `sourceText`, `targetLanguage`, `error`,
  `details`, `solution`, `errorCode`).  Purely diagnostic extras of the
  debug worker (`processingTime`, `errorType`, `timestamp`, the `path`
  field of its 404 body, health-check diagnostics) are elided.
* JavaScript property access `languageNames[targetLanguage]` consults the
  prototype chain: an object literal inherits from `Object.prototype`, so
  keys such as "constructor" or "toString" yield truthy values even
  though they are not own properties of the table.  `resolveLang` models
  this, with `protoDisplay` giving the string such an inherited value
  coerces to inside a template literal.
* The Express server registers no catch-all route, so unmatched requests
  fall through to the framework default handler, a 404 with an HTML
  "Cannot METHOD /path" page; `expressApp` models that default.  The
  `express.json()` middleware rejects malformed JSON bodies with a
  framework 400 error page before the route handler runs.
* String lengths are counted in characters (the inputs used concretely
  here are ASCII, where this agrees with JavaScript UTF-16 lengths).
-/

/-- JavaScript truthiness of an optional string field: the field is present
and is not the empty string. -/
def truthy : Option String → Bool
  | none => false
  | some s => !(s == "")

/-- Does the character list start with the second list? -/
def startsWithL : List Char → List Char → Bool
  | _, [] => true
  | [], _ :: _ => false
  | a :: as, b :: bs => a == b && startsWithL as bs

/-- Substring containment on character lists. -/
def includesL (needle : List Char) : List Char → Bool
  | [] => needle.isEmpty
  | a :: as => startsWithL (a :: as) needle || includesL needle as

/-- JavaScript `String.prototype.includes`. -/
def jsIncludes (s needle : String) : Bool := includesL needle.data s.data

/-- The WhiteSpace and LineTerminator code points removed by JavaScript
`String.prototype.trim`: tab, line feed, vertical tab, form feed, carriage
return, space, no-break space, the Unicode space separators, the line and
paragraph separators, and the byte-order mark. -/
def jsWhitespaceCodes : List Nat :=
  [0x9, 0xa, 0xb, 0xc, 0xd, 0x20, 0xa0, 0x1680, 0x2000, 0x2001, 0x2002,
   0x2003, 0x2004, 0x2005, 0x2006, 0x2007, 0x2008, 0x2009, 0x200a, 0x2028,
   0x2029, 0x202f, 0x205f, 0x3000, 0xfeff]

/-- Is the character JavaScript whitespace (for `trim`)? -/
def isJsWhitespace (c : Char) : Bool := jsWhitespaceCodes.contains c.toNat

/-- Drop leading JavaScript whitespace from a character list. -/
def trimLeftL (l : List Char) : List Char := l.dropWhile isJsWhitespace

/-- Drop trailing JavaScript whitespace from a character list. -/
def trimRightL (l : List Char) : List Char :=
  (l.reverse.dropWhile isJsWhitespace).reverse

/-- JavaScript `String.prototype.trim`. -/
def jsTrim (s : String) : String := ⟨trimRightL (trimLeftL s.data)⟩

/-- The 20-entry language table shared by the two workers
(src/Index.js lines 4-25 and 178-184). -/
def workerLanguageNames : List (String × String) :=
  [("es", "Spanish"), ("fr", "French"), ("de", "German"), ("ja", "Japanese"),
   ("zh", "Chinese"), ("ko", "Korean"), ("it", "Italian"), ("pt", "Portuguese"),
   ("ru", "Russian"), ("ar", "Arabic"), ("vi", "Vietnamese"), ("th", "Thai"),
   ("nl", "Dutch"), ("pl", "Polish"), ("tr", "Turkish"), ("sv", "Swedish"),
   ("no", "Norwegian"), ("da", "Danish"), ("fi", "Finnish"), ("hi", "Hindi")]

/-- The 10-entry language table of the Express server
(src/server.js lines 20-31). -/
def serverLanguageNames : List (String × String) :=
  [("es", "Spanish"), ("fr", "French"), ("de", "German"), ("ja", "Japanese"),
   ("zh", "Chinese"), ("ko", "Korean"), ("it", "Italian"), ("pt", "Portuguese"),
   ("ru", "Russian"), ("ar", "Arabic")]

/-- Own-property lookup in the object literal backing a language table. -/
def lookupOwn : List (String × String) → String → Option String
  | [], _ => none
  | (k, v) :: rest, key => if k = key then some v else lookupOwn rest key

/-- String-keyed members every object literal inherits from
`Object.prototype`; accessing any of them on `languageNames` yields a
truthy value (a native function, or `Object.prototype` itself for
"__proto__"). -/
def objectProtoMembers : List String :=
  ["constructor", "hasOwnProperty", "isPrototypeOf", "propertyIsEnumerable",
   "toLocaleString", "toString", "valueOf", "__proto__",
   "__defineGetter__", "__defineSetter__", "__lookupGetter__",
   "__lookupSetter__"]

/-- The string an inherited `Object.prototype` member coerces to inside a
template literal: the `Object` constructor and the native methods print as
native-function source text, and `__proto__` (the prototype object) prints
as "[object Object]". -/
def protoDisplay (key : String) : String :=
  if key = "constructor" then "function Object() \x7b [native code] \x7d"
  else if key = "__proto__" then "[object Object]"
  else "function " ++ key ++ "() \x7b [native code] \x7d"

/-- Embedding of `languageNames[targetLanguage] || targetLanguage`
(src/Index.js lines 116 and 298, src/server.js line 51): an own property
of the table wins; otherwise an inherited `Object.prototype` member is
truthy and short-circuits the `||`; otherwise the lookup is `undefined`
(falsy) and the raw input is used. -/
def resolveLang (table : List (String × String)) (key : String) : String :=
  match lookupOwn table key with
  | some name => name
  | none => if objectProtoMembers.contains key then protoDisplay key else key

/-- Prompt template of both workers (src/Index.js lines 123 and 329): a
single newline separates the instruction from the user text. -/
def workerPrompt (name text : String) : String :=
  "Translate the following text to " ++ name ++
    ". Only provide the translation, no explanations or additional text:\n" ++
    text

/-- Prompt template of the Express server (src/server.js lines 57-59): the
template literal spans a blank line, so two newlines separate the
instruction from the user text. -/
def serverPrompt (name text : String) : String :=
  "Translate the following text to " ++ name ++
    ". Only provide the translation, no explanations or additional text:\n\n" ++
    text

/-- The parsed JSON body of a POST /translate request: the destructured
`text` and `targetLanguage` fields, each possibly absent. -/
structure TranslateBody where
  text : Option String
  targetLanguage : Option String
  deriving DecidableEq

/-- Result of attempting to parse the request body as JSON: either the
parse threw (with an error message) or it produced a body object. -/
inductive BodyParse where
  | failed (message : String)
  | parsed (b : TranslateBody)
  deriving DecidableEq

/-- An inbound HTTP request, reduced to the parts the handlers inspect:
method, pathname, and the (attempted) JSON body. -/
structure Request where
  method : String
  path : String
  body : BodyParse
  deriving DecidableEq

/-- The process environment: the single credential `GEMINI_API_KEY`,
`none` when the variable is not set. -/
structure Env where
  GEMINI_API_KEY : Option String
  deriving DecidableEq

/-- Oracle for the external generative-AI client: the constructor or
`getGenerativeModel` throws, `generateContent` (or reading its response)
throws, or generation succeeds with a raw text. -/
inductive ProviderBehavior where
  | initFailure (message : String)
  | generateFailure (message : String)
  | success (text : String)
  deriving DecidableEq

/-- A successful translation payload: the three public response fields. -/
structure TranslateSuccess where
  translation : String
  sourceText : String
  targetLanguage : String
  deriving DecidableEq

/-- An error payload: the `error` summary plus the optional `details`,
`solution` and `errorCode` fields. -/
structure ErrorBody where
  error : String
  details : Option String
  solution : Option String
  errorCode : Option String
  deriving DecidableEq

/-- The body of an HTTP response: a translation result, a structured JSON
error, the service descriptor, the health payload, an empty body (OPTIONS
preflight), or a framework HTML page (Express default handlers). -/
inductive RespBody where
  | jsonSuccess (r : TranslateSuccess)
  | jsonError (e : ErrorBody)
  | serviceInfo (version : String)
  | healthBody
  | emptyBody
  | htmlBody (s : String)
  deriving DecidableEq

/-- An HTTP response: status code and body. -/
structure Resp where
  status : Nat
  body : RespBody
  deriving DecidableEq

/-- What a handler did with a request: the response it produced, and the
prompt it submitted to the provider (`none` when `generateContent` was
never invoked). -/
structure HandlerResult where
  resp : Resp
  sentPrompt : Option String
  deriving DecidableEq

/-- HTTP status of the produced response. -/
def HandlerResult.status (h : HandlerResult) : Nat := h.resp.status

/-- The `errorCode` field of the response body, when the body is a JSON
error that carries one. -/
def HandlerResult.errorCode (h : HandlerResult) : Option String :=
  match h.resp.body with
  | .jsonError e => e.errorCode
  | _ => none

/-- The `error` field of the response body, when the body is a JSON
error. -/
def HandlerResult.errorField (h : HandlerResult) : Option String :=
  match h.resp.body with
  | .jsonError e => some e.error
  | _ => none

/-- The `details` field of the response body, when the body is a JSON
error that carries one. -/
def HandlerResult.detailsField (h : HandlerResult) : Option String :=
  match h.resp.body with
  | .jsonError e => e.details
  | _ => none

/-- The `targetLanguage` field of a successful response body. -/
def HandlerResult.successTargetLanguage (h : HandlerResult) : Option String :=
  match h.resp.body with
  | .jsonSuccess r => some r.targetLanguage
  | _ => none

/-- Embedding of the POST /translate branch of the production worker
(src/Index.js lines 80-161).  A JSON parse failure propagates to the
single catch block, which answers 500 "Translation failed" with `details`
set to the thrown message; there is no credential check, no `errorCode`
field anywhere, and provider failures of any kind land in the same catch
block. -/
def productionTranslate (body : BodyParse) (env : Env)
    (provider : ProviderBehavior) : HandlerResult :=
  match body with
  | .failed message =>
      { resp := { status := 500,
                  body := .jsonError { error := "Translation failed",
                                       details := some message,
                                       solution := none, errorCode := none } },
        sentPrompt := none }
  | .parsed b =>
      if !truthy b.text || !truthy b.targetLanguage then
        { resp := { status := 400,
                    body := .jsonError
                      { error := "Missing required fields: text and targetLanguage",
                        details := none, solution := none, errorCode := none } },
          sentPrompt := none }
      else if (b.text.getD "").length > 1000 then
        { resp := { status := 400,
                    body := .jsonError
                      { error := "Text too long (max 1000 characters)",
                        details := none, solution := none,
                        errorCode := none } },
          sentPrompt := none }
      else
        match provider with
          | .initFailure message =>
              { resp := { status := 500,
                          body := .jsonError { error := "Translation failed",
                                               details := some message,
                                               solution := none,
                                               errorCode := none } },
                sentPrompt := none }
          | .generateFailure message =>
              { resp := { status := 500,
                          body := .jsonError { error := "Translation failed",
                                               details := some message,
                                               solution := none,
                                               errorCode := none } },
                sentPrompt := some (workerPrompt (resolveLang workerLanguageNames (b.targetLanguage.getD "")) (b.text.getD "")) }
          | .success generated =>
              { resp := { status := 200,
                          body := .jsonSuccess
                            { translation := jsTrim generated,
                              sourceText := b.text.getD "",
                              targetLanguage := resolveLang workerLanguageNames (b.targetLanguage.getD "") } },
                sentPrompt := some (workerPrompt (resolveLang workerLanguageNames (b.targetLanguage.getD "")) (b.text.getD "")) }

/-- Embedding of the production worker's fetch dispatch
(src/Index.js lines 27-175): OPTIONS preflight, the root and health
endpoints (matched on pathname alone, any method), the POST /translate
branch, and the catch-all 404. -/
def productionFetch (req : Request) (env : Env)
    (provider : ProviderBehavior) : HandlerResult :=
  if req.method = "OPTIONS" then
    { resp := { status := 200, body := .emptyBody }, sentPrompt := none }
  else if req.path = "/" then
    { resp := { status := 200, body := .serviceInfo "1.0.0" },
      sentPrompt := none }
  else if req.path = "/health" then
    { resp := { status := 200, body := .healthBody }, sentPrompt := none }
  else if req.path = "/translate" ∧ req.method = "POST" then
    productionTranslate req.body env provider
  else
    { resp := { status := 404,
                body := .jsonError { error := "Not found", details := none,
                                     solution := none, errorCode := none } },
      sentPrompt := none }

/-- Embedding of the POST /translate branch of the debug worker
(src/Index.js lines 232-399).  Step 1 checks the credential before
anything else; step 2 parses the body; step 3 validates the fields and the
length; steps 4-5 classify provider failures by message substrings, with
unmatched errors rethrown into the outer catch, which answers 500 with
`errorCode` UNKNOWN_ERROR and `details` set to the message. -/
def debugTranslate (body : BodyParse) (env : Env)
    (provider : ProviderBehavior) : HandlerResult :=
  if !truthy env.GEMINI_API_KEY then
    { resp := { status := 500,
                body := .jsonError
                  { error := "Server configuration error",
                    details := some "GEMINI_API_KEY is not set. Please configure the API key.",
                    solution := some "Run: npx wrangler secret put GEMINI_API_KEY",
                    errorCode := some "API_KEY_MISSING" } },
      sentPrompt := none }
  else
    match body with
    | .failed message =>
        { resp := { status := 400,
                    body := .jsonError { error := "Invalid JSON",
                                         details := some message,
                                         solution := none,
                                         errorCode := some "JSON_PARSE_ERROR" } },
          sentPrompt := none }
    | .parsed b =>
        if !truthy b.text || !truthy b.targetLanguage then
          { resp := { status := 400,
                      body := .jsonError
                        { error := "Missing required fields",
                          details := some "Both \"text\" and \"targetLanguage\" are required",
                          solution := none,
                          errorCode := some "MISSING_FIELDS" } },
            sentPrompt := none }
        else if (b.text.getD "").length > 1000 then
          { resp := { status := 400,
                      body := .jsonError
                        { error := "Text too long",
                          details := some ("Text length: " ++ toString (b.text.getD "").length ++ ", Max: 1000 characters"),
                          solution := none,
                          errorCode := some "TEXT_TOO_LONG" } },
            sentPrompt := none }
        else
          match provider with
            | .initFailure message =>
                if jsIncludes message "API key" || jsIncludes message "api_key" then
                  { resp := { status := 500,
                              body := .jsonError
                                { error := "Invalid API key",
                                  details := some "The Gemini API key appears to be invalid. Please check it.",
                                  solution := some "Get a new key from https://makersuite.google.com/app/apikey",
                                  errorCode := some "INVALID_API_KEY" } },
                    sentPrompt := none }
                else
                  { resp := { status := 500,
                              body := .jsonError
                                { error := "Translation failed",
                                  details := some message,
                                  solution := none,
                                  errorCode := some "UNKNOWN_ERROR" } },
                    sentPrompt := none }
            | .generateFailure message =>
                if jsIncludes message "quota" || jsIncludes message "rate" then
                  { resp := { status := 429,
                              body := .jsonError
                                { error := "API quota exceeded",
                                  details := some "Gemini API rate limit reached. Please wait a moment.",
                                  solution := none,
                                  errorCode := some "QUOTA_EXCEEDED" } },
                    sentPrompt := some (workerPrompt (resolveLang workerLanguageNames (b.targetLanguage.getD "")) (b.text.getD "")) }
                else if jsIncludes message "API key" then
                  { resp := { status := 500,
                              body := .jsonError
                                { error := "Invalid API key",
                                  details := some message,
                                  solution := none,
                                  errorCode := some "INVALID_API_KEY" } },
                    sentPrompt := some (workerPrompt (resolveLang workerLanguageNames (b.targetLanguage.getD "")) (b.text.getD "")) }
                else
                  { resp := { status := 500,
                              body := .jsonError
                                { error := "Translation failed",
                                  details := some message,
                                  solution := none,
                                  errorCode := some "UNKNOWN_ERROR" } },
                    sentPrompt := some (workerPrompt (resolveLang workerLanguageNames (b.targetLanguage.getD "")) (b.text.getD "")) }
            | .success generated =>
                { resp := { status := 200,
                            body := .jsonSuccess
                              { translation := jsTrim generated,
                                sourceText := b.text.getD "",
                                targetLanguage := resolveLang workerLanguageNames (b.targetLanguage.getD "") } },
                  sentPrompt := some (workerPrompt (resolveLang workerLanguageNames (b.targetLanguage.getD "")) (b.text.getD "")) }

/-- Embedding of the debug worker's fetch dispatch (src/Index.js lines
186-411): OPTIONS preflight, the health and root endpoints (matched on
pathname alone), the POST /translate branch, and the catch-all 404 (whose
body also carries errorCode NOT_FOUND). -/
def debugFetch (req : Request) (env : Env)
    (provider : ProviderBehavior) : HandlerResult :=
  if req.method = "OPTIONS" then
    { resp := { status := 200, body := .emptyBody }, sentPrompt := none }
  else if req.path = "/health" then
    { resp := { status := 200, body := .healthBody }, sentPrompt := none }
  else if req.path = "/" then
    { resp := { status := 200, body := .serviceInfo "2.0-debug" },
      sentPrompt := none }
  else if req.path = "/translate" ∧ req.method = "POST" then
    debugTranslate req.body env provider
  else
    { resp := { status := 404,
                body := .jsonError { error := "Not found", details := none,
                                     solution := none,
                                     errorCode := some "NOT_FOUND" } },
      sentPrompt := none }

/-- Embedding of the Express POST /translate route (src/server.js lines
34-80).  A malformed JSON body is rejected by the `express.json()`
middleware with a framework 400 error page before the route handler runs;
inside the handler there is no credential check and no `errorCode`, and
every provider failure lands in the single catch block. -/
def expressTranslate (body : BodyParse) (env : Env)
    (provider : ProviderBehavior) : HandlerResult :=
  match body with
  | .failed message =>
      { resp := { status := 400, body := .htmlBody message },
        sentPrompt := none }
  | .parsed b =>
      if !truthy b.text || !truthy b.targetLanguage then
        { resp := { status := 400,
                    body := .jsonError
                      { error := "Missing required fields: text and targetLanguage",
                        details := none, solution := none, errorCode := none } },
          sentPrompt := none }
      else if (b.text.getD "").length > 1000 then
        { resp := { status := 400,
                    body := .jsonError
                      { error := "Text too long (max 1000 characters)",
                        details := none, solution := none,
                        errorCode := none } },
          sentPrompt := none }
      else
        match provider with
          | .initFailure message =>
              { resp := { status := 500,
                          body := .jsonError { error := "Translation failed",
                                               details := some message,
                                               solution := none,
                                               errorCode := none } },
                sentPrompt := none }
          | .generateFailure message =>
              { resp := { status := 500,
                          body := .jsonError { error := "Translation failed",
                                               details := some message,
                                               solution := none,
                                               errorCode := none } },
                sentPrompt := some (serverPrompt (resolveLang serverLanguageNames (b.targetLanguage.getD "")) (b.text.getD "")) }
          | .success generated =>
              { resp := { status := 200,
                          body := .jsonSuccess
                            { translation := jsTrim generated,
                              sourceText := b.text.getD "",
                              targetLanguage := resolveLang serverLanguageNames (b.targetLanguage.getD "") } },
                sentPrompt := some (serverPrompt (resolveLang serverLanguageNames (b.targetLanguage.getD "")) (b.text.getD "")) }

/-- Embedding of the Express application's routing (src/server.js): the
cors middleware answers OPTIONS preflights; the registered routes are
POST /translate, GET /health and GET /; any other request falls through
to the framework's default final handler, a 404 with an HTML
"Cannot METHOD /path" page — server.js registers no catch-all route. -/
def expressApp (req : Request) (env : Env)
    (provider : ProviderBehavior) : HandlerResult :=
  if req.method = "OPTIONS" then
    { resp := { status := 204, body := .emptyBody }, sentPrompt := none }
  else if req.method = "POST" ∧ req.path = "/translate" then
    expressTranslate req.body env provider
  else if req.method = "GET" ∧ req.path = "/health" then
    { resp := { status := 200, body := .healthBody }, sentPrompt := none }
  else if req.method = "GET" ∧ req.path = "/" then
    { resp := { status := 200, body := .serviceInfo "1.0.0" },
      sentPrompt := none }
  else
    { resp := { status := 404,
                body := .htmlBody ("Cannot " ++ req.method ++ " " ++ req.path) },
      sentPrompt := none }

/-- A well-formed POST /translate request with the given field values. -/
def mkTranslateReq (t l : String) : Request :=
  { method := "POST", path := "/translate",
    body := .parsed { text := some t, targetLanguage := some l } }

/-- Environment with a configured credential. -/
def keyEnv : Env := { GEMINI_API_KEY := some "test-api-key-123" }

/-- Environment with no credential configured. -/
def noKeyEnv : Env := { GEMINI_API_KEY := none }

/-- A text of 1001 characters (over the limit). -/
def longText1001 : String := ⟨List.replicate 1001 'a'⟩

/-- A text of exactly 1000 characters (at the limit). -/
def text1000 : String := ⟨List.replicate 1000 'b'⟩

/-- Dropping a prefix by a predicate is idempotent. -/
lemma dropWhile_twice {α : Type} (p : α → Bool) (l : List α) :
    (l.dropWhile p).dropWhile p = l.dropWhile p := by
  induction l with
  | nil => rfl
  | cons a t ih =>
      by_cases h : p a
      · simp [List.dropWhile_cons, h, ih]
      · simp [List.dropWhile_cons, h]

/-- Dropping by a predicate never lengthens a list. -/
lemma length_dropWhileLe {α : Type} (p : α → Bool) (l : List α) :
    (l.dropWhile p).length ≤ l.length := by
  induction l with
  | nil => simp
  | cons a t ih =>
      by_cases h : p a
      · simp only [List.dropWhile_cons, h, if_true]
        exact Nat.le_trans ih (Nat.le_succ _)
      · simp [List.dropWhile_cons, h]

/-- A final element failing the predicate survives `dropWhile` and the
drop acts only on the front. -/
lemma dropWhile_append_last {α : Type} (p : α → Bool) (a : α)
    (ha : p a = false) (l : List α) :
    (l ++ [a]).dropWhile p = l.dropWhile p ++ [a] := by
  induction l with
  | nil => simp [List.dropWhile_cons, ha]
  | cons x xs ih =>
      by_cases h : p x
      · simp [List.dropWhile_cons, h, ih]
      · simp [List.dropWhile_cons, h]

/-- On a list with no leading whitespace, trimming the right leaves the
left trimmed as well. -/
lemma trimLeftL_trimRightL (l : List Char) (hl : trimLeftL l = l) :
    trimLeftL (trimRightL l) = trimRightL l := by
  cases l with
  | nil => rfl
  | cons a t =>
      have ha : isJsWhitespace a = false := by
        by_contra hcon
        rw [Bool.not_eq_false] at hcon
        have h2 := hl
        simp only [trimLeftL, List.dropWhile_cons, hcon, if_true] at h2
        have hlen := congrArg List.length h2
        have hle := length_dropWhileLe isJsWhitespace t
        simp at hlen
        omega
      have hR : trimRightL (a :: t) =
          a :: (t.reverse.dropWhile isJsWhitespace).reverse := by
        simp [trimRightL, List.reverse_cons, dropWhile_append_last _ _ ha]
      rw [hR]
      simp [trimLeftL, List.dropWhile_cons, ha]

/-- Trimming trailing whitespace is idempotent. -/
lemma trimRightL_twice (l : List Char) :
    trimRightL (trimRightL l) = trimRightL l := by
  simp [trimRightL, List.reverse_reverse, dropWhile_twice]

/-- Trimming leading whitespace is idempotent. -/
lemma trimLeftL_twice (l : List Char) : trimLeftL (trimLeftL l) = trimLeftL l :=
  dropWhile_twice _ _

/-- JavaScript `trim` is idempotent. -/
lemma jsTrim_idem (s : String) : jsTrim (jsTrim s) = jsTrim s := by
  show (⟨trimRightL (trimLeftL (trimRightL (trimLeftL s.data)))⟩ : String) =
       ⟨trimRightL (trimLeftL s.data)⟩
  rw [trimLeftL_trimRightL _ (trimLeftL_twice _), trimRightL_twice]

/-- A successful body of the production /translate branch carries a
provider text passed through `jsTrim`. -/
lemma productionTranslate_success (body : BodyParse) (env : Env)
    (provider : ProviderBehavior) (s : TranslateSuccess)
    (h : (productionTranslate body env provider).resp.body = .jsonSuccess s) :
    ∃ g, s.translation = jsTrim g := by
  unfold productionTranslate at h
  split at h
  · simp at h
  · split at h
    · simp at h
    · split at h
      · simp at h
      · split at h
        · simp at h
        · simp at h
        · rename_i generated
          refine ⟨generated, ?_⟩
          simp only [RespBody.jsonSuccess.injEq] at h
          rw [← h]

/-- A successful body of the debug /translate branch carries a provider
text passed through `jsTrim`. -/
lemma debugTranslate_success (body : BodyParse) (env : Env)
    (provider : ProviderBehavior) (s : TranslateSuccess)
    (h : (debugTranslate body env provider).resp.body = .jsonSuccess s) :
    ∃ g, s.translation = jsTrim g := by
  unfold debugTranslate at h
  split at h
  · simp at h
  · split at h
    · simp at h
    · split at h
      · simp at h
      · split at h
        · simp at h
        · split at h
          · split at h
            · simp at h
            · simp at h
          · split at h
            · simp at h
            · split at h
              · simp at h
              · simp at h
          · rename_i generated
            refine ⟨generated, ?_⟩
            simp only [RespBody.jsonSuccess.injEq] at h
            rw [← h]

/-- A successful body of the Express /translate route carries a provider
text passed through `jsTrim`. -/
lemma expressTranslate_success (body : BodyParse) (env : Env)
    (provider : ProviderBehavior) (s : TranslateSuccess)
    (h : (expressTranslate body env provider).resp.body = .jsonSuccess s) :
    ∃ g, s.translation = jsTrim g := by
  unfold expressTranslate at h
  split at h
  · simp at h
  · split at h
    · simp at h
    · split at h
      · simp at h
      · split at h
        · simp at h
        · simp at h
        · rename_i generated
          refine ⟨generated, ?_⟩
          simp only [RespBody.jsonSuccess.injEq] at h
          rw [← h]

/-- A successful body of the production worker carries a trimmed text. -/
lemma productionFetch_success (req : Request) (env : Env)
    (provider : ProviderBehavior) (s : TranslateSuccess)
    (h : (productionFetch req env provider).resp.body = .jsonSuccess s) :
    ∃ g, s.translation = jsTrim g := by
  unfold productionFetch at h
  split at h
  · simp at h
  · split at h
    · simp at h
    · split at h
      · simp at h
      · split at h
        · exact productionTranslate_success _ _ _ _ h
        · simp at h

/-- A successful body of the debug worker carries a trimmed text. -/
lemma debugFetch_success (req : Request) (env : Env)
    (provider : ProviderBehavior) (s : TranslateSuccess)
    (h : (debugFetch req env provider).resp.body = .jsonSuccess s) :
    ∃ g, s.translation = jsTrim g := by
  unfold debugFetch at h
  split at h
  · simp at h
  · split at h
    · simp at h
    · split at h
      · simp at h
      · split at h
        · exact debugTranslate_success _ _ _ _ h
        · simp at h

/-- A successful body of the Express app carries a trimmed text. -/
lemma expressApp_success (req : Request) (env : Env)
    (provider : ProviderBehavior) (s : TranslateSuccess)
    (h : (expressApp req env provider).resp.body = .jsonSuccess s) :
    ∃ g, s.translation = jsTrim g := by
  unfold expressApp at h
  split at h
  · simp at h
  · split at h
    · exact expressTranslate_success _ _ _ _ h
    · split at h
      · simp at h
      · split at h
        · simp at h
        · simp at h

/-- C9: for every successful translation response of any of the three
variants, the `translation` field is unchanged by re-trimming: each
variant trims the provider text before packaging it, and JavaScript
`trim` is idempotent. -/
theorem C9_translation_trim_idempotent (req : Request) (env : Env)
    (provider : ProviderBehavior) (s : TranslateSuccess)
    (h : (productionFetch req env provider).resp.body = .jsonSuccess s ∨
         (debugFetch req env provider).resp.body = .jsonSuccess s ∨
         (expressApp req env provider).resp.body = .jsonSuccess s) :
    jsTrim s.translation = s.translation := by
  rcases h with h | h | h
  · obtain ⟨g, hg⟩ := productionFetch_success _ _ _ _ h
    rw [hg, jsTrim_idem]
  · obtain ⟨g, hg⟩ := debugFetch_success _ _ _ _ h
    rw [hg, jsTrim_idem]
  · obtain ⟨g, hg⟩ := expressApp_success _ _ _ _ h
    rw [hg, jsTrim_idem]

/-- C9 witness: the production worker on a concrete request whose provider
text has surrounding whitespace answers with the trimmed "Hola", which
re-trimming leaves unchanged. -/
theorem C9_witness :
    (productionFetch (mkTranslateReq "Hello" "es") keyEnv (.success "  Hola  ")).resp.body =
      RespBody.jsonSuccess
        { translation := "Hola", sourceText := "Hello", targetLanguage := "Spanish" } ∧
    jsTrim "Hola" = "Hola" :=
  ⟨by decide,
   C9_translation_trim_idempotent (mkTranslateReq "Hello" "es") keyEnv (.success "  Hola  ")
     { translation := "Hola", sourceText := "Hello", targetLanguage := "Spanish" }
     (Or.inl (by decide))⟩

/-- C10: in both workers a request to /translate whose method is neither
POST nor OPTIONS matches no route and falls through to the catch-all 404
Not-found response; there is no 405 Method-Not-Allowed. -/
theorem C10_translate_non_post_404 (req : Request) (env : Env)
    (provider : ProviderBehavior) (hpath : req.path = "/translate")
    (hm : req.method ≠ "POST") (ho : req.method ≠ "OPTIONS") :
    (productionFetch req env provider).status = 404 ∧
    (productionFetch req env provider).errorField = some "Not found" ∧
    (debugFetch req env provider).status = 404 ∧
    (debugFetch req env provider).errorField = some "Not found" := by
  unfold productionFetch debugFetch
  simp [hpath, hm, ho, HandlerResult.status, HandlerResult.errorField]

/-- C10 witness: GET /translate gets the 404 Not-found response from both
workers. -/
theorem C10_witness :
    (productionFetch
        { method := "GET", path := "/translate",
          body := .parsed { text := none, targetLanguage := none } }
        keyEnv (.success "x")).status = 404 ∧
    (productionFetch
        { method := "GET", path := "/translate",
          body := .parsed { text := none, targetLanguage := none } }
        keyEnv (.success "x")).errorField = some "Not found" ∧
    (debugFetch
        { method := "GET", path := "/translate",
          body := .parsed { text := none, targetLanguage := none } }
        keyEnv (.success "x")).status = 404 ∧
    (debugFetch
        { method := "GET", path := "/translate",
          body := .parsed { text := none, targetLanguage := none } }
        keyEnv (.success "x")).errorField = some "Not found" :=
  C10_translate_non_post_404
    { method := "GET", path := "/translate",
      body := .parsed { text := none, targetLanguage := none } }
    keyEnv (.success "x") rfl (by decide) (by decide)

/-- C7 counterexample: "constructor" is not an own entry of the worker
language table, yet JavaScript property access consults the prototype
chain, so `languageNames["constructor"]` is the truthy `Object`
constructor and short-circuits the `||`; the display name that reaches the
prompt is that value's string coercion, not the input "constructor". -/
theorem C7_counterexample :
    lookupOwn workerLanguageNames "constructor" = none ∧
    resolveLang workerLanguageNames "constructor" ≠ "constructor" ∧
    resolveLang workerLanguageNames "constructor" =
      "function Object() \x7b [native code] \x7d" ∧
    (debugFetch (mkTranslateReq "Hello" "constructor") keyEnv
        (.success "x")).sentPrompt =
      some (workerPrompt "function Object() \x7b [native code] \x7d" "Hello") := by
  decide

/-- C7 amended: resolution is a pure lookup with verbatim fallback, except
for inputs naming an inherited `Object.prototype` member: a known code
maps to its table entry ("fr" to "French" in both tables), and an input
that is neither an own table entry nor an `Object.prototype` member name
passes through verbatim.  The tables themselves are constants of the
embedding and no handler modifies them. -/
theorem C7_resolution_amended (l : String)
    (hown : lookupOwn workerLanguageNames l = none)
    (hproto : objectProtoMembers.contains l = false) :
    resolveLang workerLanguageNames "fr" = "French" ∧
    resolveLang serverLanguageNames "fr" = "French" ∧
    resolveLang workerLanguageNames l = l ∧
    (lookupOwn serverLanguageNames l = none →
      resolveLang serverLanguageNames l = l) := by
  have hmem : l ∉ objectProtoMembers := by simpa using hproto
  refine ⟨by decide, by decide, ?_, ?_⟩
  · simp [resolveLang, hown, hmem]
  · intro h2
    simp [resolveLang, h2, hmem]

/-- C7 witness: "xx" is in neither table nor `Object.prototype`, and
resolves to itself. -/
theorem C7_witness :
    lookupOwn workerLanguageNames "xx" = none ∧
    objectProtoMembers.contains "xx" = false ∧
    resolveLang workerLanguageNames "xx" = "xx" :=
  ⟨by decide, by decide,
   (C7_resolution_amended "xx" (by decide) (by decide)).2.2.1⟩

/-- C8 counterexample: the Express server registers no catch-all route, so
GET /unknown-path is answered by the framework's default 404 — an HTML
"Cannot GET /unknown-path" page with no JSON error field — not by the
JSON body with error "Not found" that the claim asserts for every
variant. -/
theorem C8_counterexample :
    (expressApp
        { method := "GET", path := "/unknown-path",
          body := .parsed { text := none, targetLanguage := none } }
        keyEnv (.success "x")).status = 404 ∧
    (expressApp
        { method := "GET", path := "/unknown-path",
          body := .parsed { text := none, targetLanguage := none } }
        keyEnv (.success "x")).errorField = none ∧
    (expressApp
        { method := "GET", path := "/unknown-path",
          body := .parsed { text := none, targetLanguage := none } }
        keyEnv (.success "x")).resp.body = .htmlBody "Cannot GET /unknown-path" := by
  decide

/-- C8 amended: for every request outside the defined surface (method not
OPTIONS, path not / or /health, and not POST /translate), the two workers
answer 404 with a JSON body whose error is "Not found" (the debug worker
also sets errorCode NOT_FOUND), while the Express server answers 404 with
the framework's default HTML "Cannot METHOD /path" page, since server.js
registers no catch-all route. -/
theorem C8_unknown_path_amended (req : Request) (env : Env)
    (provider : ProviderBehavior) (ho : req.method ≠ "OPTIONS")
    (h1 : req.path ≠ "/") (h2 : req.path ≠ "/health")
    (h3 : ¬(req.path = "/translate" ∧ req.method = "POST")) :
    (productionFetch req env provider).status = 404 ∧
    (productionFetch req env provider).errorField = some "Not found" ∧
    (debugFetch req env provider).status = 404 ∧
    (debugFetch req env provider).errorField = some "Not found" ∧
    (debugFetch req env provider).errorCode = some "NOT_FOUND" ∧
    (expressApp req env provider).status = 404 ∧
    (expressApp req env provider).resp.body =
      .htmlBody ("Cannot " ++ req.method ++ " " ++ req.path) := by
  have h3' : ¬(req.method = "POST" ∧ req.path = "/translate") := fun hc => h3 ⟨hc.2, hc.1⟩
  unfold productionFetch debugFetch expressApp
  simp [ho, h1, h2, h3, h3', HandlerResult.status, HandlerResult.errorField,
    HandlerResult.errorCode]

/-- C8 witness: GET /nope gets the workers' JSON 404 and the Express
default HTML 404. -/
theorem C8_witness :
    (productionFetch
        { method := "GET", path := "/nope",
          body := .parsed { text := none, targetLanguage := none } }
        keyEnv (.success "x")).status = 404 ∧
    (productionFetch
        { method := "GET", path := "/nope",
          body := .parsed { text := none, targetLanguage := none } }
        keyEnv (.success "x")).errorField = some "Not found" ∧
    (debugFetch
        { method := "GET", path := "/nope",
          body := .parsed { text := none, targetLanguage := none } }
        keyEnv (.success "x")).status = 404 ∧
    (debugFetch
        { method := "GET", path := "/nope",
          body := .parsed { text := none, targetLanguage := none } }
        keyEnv (.success "x")).errorField = some "Not found" ∧
    (debugFetch
        { method := "GET", path := "/nope",
          body := .parsed { text := none, targetLanguage := none } }
        keyEnv (.success "x")).errorCode = some "NOT_FOUND" ∧
    (expressApp
        { method := "GET", path := "/nope",
          body := .parsed { text := none, targetLanguage := none } }
        keyEnv (.success "x")).status = 404 ∧
    (expressApp
        { method := "GET", path := "/nope",
          body := .parsed { text := none, targetLanguage := none } }
        keyEnv (.success "x")).resp.body = .htmlBody ("Cannot " ++ "GET" ++ " " ++ "/nope") :=
  C8_unknown_path_amended
    { method := "GET", path := "/nope",
      body := .parsed { text := none, targetLanguage := none } }
    keyEnv (.success "x") (by decide) (by decide) (by decide) (by decide)

/-- A POST /translate request whose body does not parse as JSON. -/
def parseFailReq : Request :=
  { method := "POST", path := "/translate", body := .failed "Unexpected token" }

/-- A POST /translate request missing the targetLanguage field. -/
def missingFieldReq : Request :=
  { method := "POST", path := "/translate",
    body := .parsed { text := some "Hello", targetLanguage := none } }

/-- C1 counterexample: a POST /translate request with an unparseable body
arriving with no configured credential receives API_KEY_MISSING (500)
from the debug worker — the credential check runs before body parsing —
not the JSON_PARSE_ERROR (400) the claim requires. -/
theorem C1_counterexample :
    (debugFetch parseFailReq noKeyEnv (.success "x")).status = 500 ∧
    (debugFetch parseFailReq noKeyEnv (.success "x")).errorCode =
      some "API_KEY_MISSING" ∧
    (debugFetch parseFailReq noKeyEnv (.success "x")).status ≠ 400 ∧
    (debugFetch parseFailReq noKeyEnv (.success "x")).errorCode ≠
      some "JSON_PARSE_ERROR" := by
  decide

/-- C1 amended: the debug worker applies its checks in the order
(1) credential configured, else API_KEY_MISSING 500; (2) body parses,
else JSON_PARSE_ERROR 400; (3) both fields present and truthy, else
MISSING_FIELDS 400; (4) text length at most 1000, else TEXT_TOO_LONG 400
— so an unparseable body with no configured credential yields
API_KEY_MISSING 500.  The production worker has no JSON_PARSE_ERROR or
API_KEY_MISSING response at all: a parse failure lands in its generic
catch as a 500 "Translation failed" whose details carry the thrown
message. -/
theorem C1_validation_order_amended (req : Request) (env : Env)
    (provider : ProviderBehavior) (hpath : req.path = "/translate")
    (hmethod : req.method = "POST") :
    (truthy env.GEMINI_API_KEY = false →
      (debugFetch req env provider).status = 500 ∧
      (debugFetch req env provider).errorCode = some "API_KEY_MISSING" ∧
      (debugFetch req env provider).sentPrompt = none) ∧
    (truthy env.GEMINI_API_KEY = true →
      (∀ m, req.body = .failed m →
        (debugFetch req env provider).status = 400 ∧
        (debugFetch req env provider).errorCode = some "JSON_PARSE_ERROR") ∧
      (∀ b, req.body = .parsed b →
        truthy b.text = false ∨ truthy b.targetLanguage = false →
        (debugFetch req env provider).status = 400 ∧
        (debugFetch req env provider).errorCode = some "MISSING_FIELDS") ∧
      (∀ b, req.body = .parsed b →
        truthy b.text = true → truthy b.targetLanguage = true →
        (b.text.getD "").length > 1000 →
        (debugFetch req env provider).status = 400 ∧
        (debugFetch req env provider).errorCode = some "TEXT_TOO_LONG")) ∧
    (∀ m, req.body = .failed m →
      (productionFetch req env provider).status = 500 ∧
      (productionFetch req env provider).errorCode = none ∧
      (productionFetch req env provider).errorField = some "Translation failed" ∧
      (productionFetch req env provider).detailsField = some m) := by
  refine ⟨fun hk => ?_,
          fun hk => ⟨fun m hm => ?_, fun b hb hf => ?_, fun b hb ht hl hlen => ?_⟩,
          fun m hm => ?_⟩
  · unfold debugFetch debugTranslate
    simp [hpath, hmethod, hk, HandlerResult.status, HandlerResult.errorCode]
  · unfold debugFetch debugTranslate
    simp [hpath, hmethod, hk, hm, HandlerResult.status, HandlerResult.errorCode]
  · unfold debugFetch debugTranslate
    rcases hf with hf | hf <;>
      simp [hpath, hmethod, hk, hb, hf, HandlerResult.status,
        HandlerResult.errorCode]
  · unfold debugFetch debugTranslate
    simp [hpath, hmethod, hk, hb, ht, hl, hlen, HandlerResult.status,
      HandlerResult.errorCode]
  · unfold productionFetch productionTranslate
    simp [hpath, hmethod, hm, HandlerResult.status, HandlerResult.errorCode,
      HandlerResult.errorField, HandlerResult.detailsField]

/-- C1 witness: the four distinct failures of the amended order, plus the
production worker's generic 500 on a parse failure, each at a concrete
request. -/
theorem C1_witness :
    (debugFetch parseFailReq noKeyEnv (.success "x")).errorCode =
      some "API_KEY_MISSING" ∧
    (debugFetch parseFailReq keyEnv (.success "x")).errorCode =
      some "JSON_PARSE_ERROR" ∧
    (debugFetch missingFieldReq keyEnv (.success "x")).errorCode =
      some "MISSING_FIELDS" ∧
    (debugFetch (mkTranslateReq longText1001 "es") keyEnv
        (.success "x")).errorCode = some "TEXT_TOO_LONG" ∧
    (productionFetch parseFailReq noKeyEnv (.success "x")).status = 500 :=
  ⟨((C1_validation_order_amended parseFailReq noKeyEnv (.success "x") rfl rfl).1
      (by decide)).2.1,
   (((C1_validation_order_amended parseFailReq keyEnv (.success "x") rfl rfl).2.1
      (by decide)).1 "Unexpected token" rfl).2,
   (((C1_validation_order_amended missingFieldReq keyEnv (.success "x") rfl rfl).2.1
      (by decide)).2.1 { text := some "Hello", targetLanguage := none } rfl
      (Or.inr (by decide))).2,
   (((C1_validation_order_amended (mkTranslateReq longText1001 "es") keyEnv
      (.success "x") rfl rfl).2.1 (by decide)).2.2
      { text := some longText1001, targetLanguage := some "es" } rfl
      (by decide) (by decide) (by decide)).2,
   ((C1_validation_order_amended parseFailReq noKeyEnv (.success "x") rfl rfl).2.2
      "Unexpected token" rfl).1⟩

/-- C2 counterexample: with no configured credential and a valid body, the
production worker still submits the prompt to the provider (its client
constructor accepts the missing key and `generateContent` is reached) and
its failure response is a generic 500 with no errorCode — not
API_KEY_MISSING with no outbound call. -/
theorem C2_counterexample :
    (productionFetch (mkTranslateReq "Hello" "es") noKeyEnv
        (.generateFailure "API key not valid. Please pass a valid API key.")).sentPrompt ≠
      none ∧
    (productionFetch (mkTranslateReq "Hello" "es") noKeyEnv
        (.generateFailure "API key not valid. Please pass a valid API key.")).errorCode ≠
      some "API_KEY_MISSING" ∧
    (productionFetch (mkTranslateReq "Hello" "es") noKeyEnv
        (.generateFailure "API key not valid. Please pass a valid API key.")).status = 500 := by
  decide

/-- C2 amended: with no configured credential and an otherwise valid
request, the debug worker answers 500 API_KEY_MISSING without invoking
the provider; the production worker and the Express server instead
proceed to the provider invocation (submitting the prompt) and map the
resulting failure to a generic 500 "Translation failed" with no
errorCode. -/
theorem C2_missing_key_amended (t l m : String) (env : Env)
    (provider : ProviderBehavior)
    (ht : truthy (some t) = true) (hl : truthy (some l) = true)
    (hlen : t.length ≤ 1000) (hk : truthy env.GEMINI_API_KEY = false) :
    (debugFetch (mkTranslateReq t l) env provider).status = 500 ∧
    (debugFetch (mkTranslateReq t l) env provider).errorCode =
      some "API_KEY_MISSING" ∧
    (debugFetch (mkTranslateReq t l) env provider).sentPrompt = none ∧
    (productionFetch (mkTranslateReq t l) env (.generateFailure m)).sentPrompt =
      some (workerPrompt (resolveLang workerLanguageNames l) t) ∧
    (productionFetch (mkTranslateReq t l) env (.generateFailure m)).status = 500 ∧
    (productionFetch (mkTranslateReq t l) env (.generateFailure m)).errorCode =
      none ∧
    (expressApp (mkTranslateReq t l) env (.generateFailure m)).sentPrompt =
      some (serverPrompt (resolveLang serverLanguageNames l) t) ∧
    (expressApp (mkTranslateReq t l) env (.generateFailure m)).status = 500 ∧
    (expressApp (mkTranslateReq t l) env (.generateFailure m)).errorCode = none := by
  have hnl : ¬((t.length > 1000)) := by omega
  unfold debugFetch debugTranslate productionFetch productionTranslate
    expressApp expressTranslate
  simp [mkTranslateReq, ht, hl, hk, hnl, HandlerResult.status,
    HandlerResult.errorCode, HandlerResult.sentPrompt]

/-- C2 witness: concrete valid request, no credential: the debug worker
answers API_KEY_MISSING with no call, the other two variants submit the
prompt and answer a generic 500. -/
theorem C2_witness :
    (debugFetch (mkTranslateReq "Hello" "es") noKeyEnv (.success "x")).errorCode =
      some "API_KEY_MISSING" ∧
    (debugFetch (mkTranslateReq "Hello" "es") noKeyEnv (.success "x")).sentPrompt =
      none ∧
    (productionFetch (mkTranslateReq "Hello" "es") noKeyEnv
        (.generateFailure "fetch failed")).sentPrompt =
      some (workerPrompt (resolveLang workerLanguageNames "es") "Hello") ∧
    (productionFetch (mkTranslateReq "Hello" "es") noKeyEnv
        (.generateFailure "fetch failed")).errorCode = none :=
  ⟨(C2_missing_key_amended "Hello" "es" "fetch failed" noKeyEnv (.success "x")
      (by decide) (by decide) (by decide) (by decide)).2.1,
   (C2_missing_key_amended "Hello" "es" "fetch failed" noKeyEnv (.success "x")
      (by decide) (by decide) (by decide) (by decide)).2.2.1,
   (C2_missing_key_amended "Hello" "es" "fetch failed" noKeyEnv (.success "x")
      (by decide) (by decide) (by decide) (by decide)).2.2.2.1,
   (C2_missing_key_amended "Hello" "es" "fetch failed" noKeyEnv (.success "x")
      (by decide) (by decide) (by decide) (by decide)).2.2.2.2.2.1⟩

/-- C3 counterexample: a provider failure whose message indicates quota
exhaustion gets a generic 500 "Translation failed" with no errorCode from
the production worker — not the QUOTA_EXCEEDED 429 the claim requires for
every request that reaches the provider. -/
theorem C3_counterexample :
    jsIncludes "You exceeded your current quota" "quota" = true ∧
    (productionFetch (mkTranslateReq "Hello" "es") keyEnv
        (.generateFailure "You exceeded your current quota")).status = 500 ∧
    (productionFetch (mkTranslateReq "Hello" "es") keyEnv
        (.generateFailure "You exceeded your current quota")).status ≠ 429 ∧
    (productionFetch (mkTranslateReq "Hello" "es") keyEnv
        (.generateFailure "You exceeded your current quota")).errorCode = none := by
  decide

/-- C3 amended: the debug worker classifies generation failures by message
substrings — quota/rate gives QUOTA_EXCEEDED 429, otherwise "API key"
gives INVALID_API_KEY 500, otherwise the rethrown error reaches the outer
catch as UNKNOWN_ERROR 500 with details set to the message; the
production worker and the Express server instead map every generation
failure to a generic 500 "Translation failed" with details set to the
message and no errorCode. -/
theorem C3_provider_failure_amended (t l m : String) (env : Env)
    (ht : truthy (some t) = true) (hl : truthy (some l) = true)
    (hlen : t.length ≤ 1000) (hk : truthy env.GEMINI_API_KEY = true) :
    (jsIncludes m "quota" = true ∨ jsIncludes m "rate" = true →
      (debugFetch (mkTranslateReq t l) env (.generateFailure m)).status = 429 ∧
      (debugFetch (mkTranslateReq t l) env (.generateFailure m)).errorCode =
        some "QUOTA_EXCEEDED") ∧
    (jsIncludes m "quota" = false → jsIncludes m "rate" = false →
     jsIncludes m "API key" = true →
      (debugFetch (mkTranslateReq t l) env (.generateFailure m)).status = 500 ∧
      (debugFetch (mkTranslateReq t l) env (.generateFailure m)).errorCode =
        some "INVALID_API_KEY") ∧
    (jsIncludes m "quota" = false → jsIncludes m "rate" = false →
     jsIncludes m "API key" = false →
      (debugFetch (mkTranslateReq t l) env (.generateFailure m)).status = 500 ∧
      (debugFetch (mkTranslateReq t l) env (.generateFailure m)).errorCode =
        some "UNKNOWN_ERROR" ∧
      (debugFetch (mkTranslateReq t l) env (.generateFailure m)).detailsField =
        some m) ∧
    ((productionFetch (mkTranslateReq t l) env (.generateFailure m)).status = 500 ∧
     (productionFetch (mkTranslateReq t l) env (.generateFailure m)).errorCode =
       none ∧
     (productionFetch (mkTranslateReq t l) env (.generateFailure m)).errorField =
       some "Translation failed" ∧
     (productionFetch (mkTranslateReq t l) env (.generateFailure m)).detailsField =
       some m) ∧
    ((expressApp (mkTranslateReq t l) env (.generateFailure m)).status = 500 ∧
     (expressApp (mkTranslateReq t l) env (.generateFailure m)).errorCode = none ∧
     (expressApp (mkTranslateReq t l) env (.generateFailure m)).detailsField =
       some m) := by
  have hnl : ¬(t.length > 1000) := by omega
  refine ⟨fun hq => ?_, fun hq hr hak => ?_, fun hq hr hak => ?_, ?_, ?_⟩
  · unfold debugFetch debugTranslate
    rcases hq with hq | hq <;>
      simp [mkTranslateReq, ht, hl, hk, hnl, hq, HandlerResult.status,
        HandlerResult.errorCode]
  · unfold debugFetch debugTranslate
    simp [mkTranslateReq, ht, hl, hk, hnl, hq, hr, hak, HandlerResult.status,
      HandlerResult.errorCode]
  · unfold debugFetch debugTranslate
    simp [mkTranslateReq, ht, hl, hk, hnl, hq, hr, hak, HandlerResult.status,
      HandlerResult.errorCode, HandlerResult.detailsField]
  · unfold productionFetch productionTranslate
    simp [mkTranslateReq, ht, hl, hnl, HandlerResult.status,
      HandlerResult.errorCode, HandlerResult.errorField,
      HandlerResult.detailsField]
  · unfold expressApp expressTranslate
    simp [mkTranslateReq, ht, hl, hnl, HandlerResult.status,
      HandlerResult.errorCode, HandlerResult.detailsField]

/-- C3 witness: the three debug classifications at concrete messages, and
the production worker's uniform 500 at the quota message. -/
theorem C3_witness :
    (debugFetch (mkTranslateReq "Hello" "es") keyEnv
        (.generateFailure "You exceeded your current quota")).status = 429 ∧
    (debugFetch (mkTranslateReq "Hello" "es") keyEnv
        (.generateFailure "API key not valid")).errorCode =
      some "INVALID_API_KEY" ∧
    (debugFetch (mkTranslateReq "Hello" "es") keyEnv
        (.generateFailure "network unreachable")).errorCode =
      some "UNKNOWN_ERROR" ∧
    (productionFetch (mkTranslateReq "Hello" "es") keyEnv
        (.generateFailure "You exceeded your current quota")).status = 500 :=
  ⟨((C3_provider_failure_amended "Hello" "es" "You exceeded your current quota"
      keyEnv (by decide) (by decide) (by decide) (by decide)).1
      (Or.inl (by decide))).1,
   ((C3_provider_failure_amended "Hello" "es" "API key not valid" keyEnv
      (by decide) (by decide) (by decide) (by decide)).2.1
      (by decide) (by decide) (by decide)).2,
   ((C3_provider_failure_amended "Hello" "es" "network unreachable" keyEnv
      (by decide) (by decide) (by decide) (by decide)).2.2.1
      (by decide) (by decide) (by decide)).2.1,
   (C3_provider_failure_amended "Hello" "es" "You exceeded your current quota"
      keyEnv (by decide) (by decide) (by decide) (by decide)).2.2.2.1.1⟩

/-- C5 counterexample: on the same validated request the Express server
submits a prompt with a blank line (two newlines) before the user text,
which differs from the single-newline template the claim asserts for
every variant. -/
theorem C5_counterexample :
    (expressApp (mkTranslateReq "Hello" "es") keyEnv (.success "Hola")).sentPrompt ≠
      some (workerPrompt "Spanish" "Hello") ∧
    (expressApp (mkTranslateReq "Hello" "es") keyEnv (.success "Hola")).sentPrompt =
      some (serverPrompt "Spanish" "Hello") ∧
    serverPrompt "Spanish" "Hello" ≠ workerPrompt "Spanish" "Hello" := by
  decide

/-- C5 amended: for every request passing all validation, both workers
submit exactly the single-newline template with the resolved display name
and the unsanitized text inserted, while the Express server submits the
same template with two newlines (a blank line) before the text. -/
theorem C5_prompt_template_amended (t l g m : String) (env : Env)
    (ht : truthy (some t) = true) (hl : truthy (some l) = true)
    (hlen : t.length ≤ 1000) (hk : truthy env.GEMINI_API_KEY = true) :
    (productionFetch (mkTranslateReq t l) env (.success g)).sentPrompt =
      some (workerPrompt (resolveLang workerLanguageNames l) t) ∧
    (productionFetch (mkTranslateReq t l) env (.generateFailure m)).sentPrompt =
      some (workerPrompt (resolveLang workerLanguageNames l) t) ∧
    (debugFetch (mkTranslateReq t l) env (.success g)).sentPrompt =
      some (workerPrompt (resolveLang workerLanguageNames l) t) ∧
    (expressApp (mkTranslateReq t l) env (.success g)).sentPrompt =
      some (serverPrompt (resolveLang serverLanguageNames l) t) ∧
    workerPrompt (resolveLang workerLanguageNames l) t =
      "Translate the following text to " ++ resolveLang workerLanguageNames l ++
        ". Only provide the translation, no explanations or additional text:\n" ++
        t ∧
    serverPrompt (resolveLang serverLanguageNames l) t =
      "Translate the following text to " ++ resolveLang serverLanguageNames l ++
        ". Only provide the translation, no explanations or additional text:\n\n" ++
        t := by
  have hnl : ¬(t.length > 1000) := by omega
  refine ⟨?_, ?_, ?_, ?_, rfl, rfl⟩
  · unfold productionFetch productionTranslate
    simp [mkTranslateReq, ht, hl, hnl]
  · unfold productionFetch productionTranslate
    simp [mkTranslateReq, ht, hl, hnl]
  · unfold debugFetch debugTranslate
    simp [mkTranslateReq, ht, hl, hk, hnl]
  · unfold expressApp expressTranslate
    simp [mkTranslateReq, ht, hl, hnl]

/-- C5 witness: the prompts submitted for a concrete validated request. -/
theorem C5_witness :
    (productionFetch (mkTranslateReq "Hello" "es") keyEnv (.success "Hola")).sentPrompt =
      some (workerPrompt (resolveLang workerLanguageNames "es") "Hello") ∧
    (debugFetch (mkTranslateReq "Hello" "es") keyEnv (.success "Hola")).sentPrompt =
      some (workerPrompt (resolveLang workerLanguageNames "es") "Hello") ∧
    (expressApp (mkTranslateReq "Hello" "es") keyEnv (.success "Hola")).sentPrompt =
      some (serverPrompt (resolveLang serverLanguageNames "es") "Hello") :=
  ⟨(C5_prompt_template_amended "Hello" "es" "Hola" "m" keyEnv (by decide)
      (by decide) (by decide) (by decide)).1,
   (C5_prompt_template_amended "Hello" "es" "Hola" "m" keyEnv (by decide)
      (by decide) (by decide) (by decide)).2.2.1,
   (C5_prompt_template_amended "Hello" "es" "Hola" "m" keyEnv (by decide)
      (by decide) (by decide) (by decide)).2.2.2.1⟩

/-- C6 counterexample: on an over-long text the production worker answers
400 but with neither the errorCode TEXT_TOO_LONG nor any details (so no
observed length); and the debug worker with no configured credential
answers 500 API_KEY_MISSING instead of the claimed 400. -/
theorem C6_counterexample :
    (productionFetch (mkTranslateReq longText1001 "es") keyEnv
        (.success "x")).status = 400 ∧
    (productionFetch (mkTranslateReq longText1001 "es") keyEnv
        (.success "x")).errorCode = none ∧
    (productionFetch (mkTranslateReq longText1001 "es") keyEnv
        (.success "x")).detailsField = none ∧
    (debugFetch (mkTranslateReq longText1001 "es") noKeyEnv
        (.success "x")).status = 500 ∧
    (debugFetch (mkTranslateReq longText1001 "es") noKeyEnv
        (.success "x")).errorCode = some "API_KEY_MISSING" := by
  decide

/-- C6 amended: with both fields present and truthy and text length over
1000, the production worker and the Express server answer 400 with the
bare error "Text too long (max 1000 characters)" (no errorCode, no
details), for any credential state; the debug worker answers 400 with
errorCode TEXT_TOO_LONG and details carrying the observed length only
when a credential is configured (otherwise its credential check fires
first with API_KEY_MISSING 500).  A text of length exactly 1000 passes
the check in all three variants. -/
theorem C6_too_long_amended (t l : String) (env : Env)
    (provider : ProviderBehavior)
    (ht : truthy (some t) = true) (hl : truthy (some l) = true)
    (hlen : t.length > 1000) :
    (productionFetch (mkTranslateReq t l) env provider).status = 400 ∧
    (productionFetch (mkTranslateReq t l) env provider).errorField =
      some "Text too long (max 1000 characters)" ∧
    (productionFetch (mkTranslateReq t l) env provider).errorCode = none ∧
    (productionFetch (mkTranslateReq t l) env provider).detailsField = none ∧
    (expressApp (mkTranslateReq t l) env provider).status = 400 ∧
    (expressApp (mkTranslateReq t l) env provider).errorField =
      some "Text too long (max 1000 characters)" ∧
    (truthy env.GEMINI_API_KEY = true →
      (debugFetch (mkTranslateReq t l) env provider).status = 400 ∧
      (debugFetch (mkTranslateReq t l) env provider).errorCode =
        some "TEXT_TOO_LONG" ∧
      (debugFetch (mkTranslateReq t l) env provider).detailsField =
        some ("Text length: " ++ toString t.length ++ ", Max: 1000 characters")) ∧
    (∀ t0 g, truthy (some t0) = true → t0.length = 1000 →
      truthy env.GEMINI_API_KEY = true →
      (productionFetch (mkTranslateReq t0 l) env (.success g)).status = 200 ∧
      (debugFetch (mkTranslateReq t0 l) env (.success g)).status = 200 ∧
      (expressApp (mkTranslateReq t0 l) env (.success g)).status = 200) := by
  refine ⟨?_, ?_, ?_, ?_, ?_, ?_, fun hk => ?_, fun t0 g ht0 hlen0 hk => ?_⟩
  · unfold productionFetch productionTranslate
    simp [mkTranslateReq, ht, hl, hlen, HandlerResult.status]
  · unfold productionFetch productionTranslate
    simp [mkTranslateReq, ht, hl, hlen, HandlerResult.errorField]
  · unfold productionFetch productionTranslate
    simp [mkTranslateReq, ht, hl, hlen, HandlerResult.errorCode]
  · unfold productionFetch productionTranslate
    simp [mkTranslateReq, ht, hl, hlen, HandlerResult.detailsField]
  · unfold expressApp expressTranslate
    simp [mkTranslateReq, ht, hl, hlen, HandlerResult.status]
  · unfold expressApp expressTranslate
    simp [mkTranslateReq, ht, hl, hlen, HandlerResult.errorField]
  · unfold debugFetch debugTranslate
    simp [mkTranslateReq, ht, hl, hk, hlen, HandlerResult.status,
      HandlerResult.errorCode, HandlerResult.detailsField]
  · have hnl : ¬(t0.length > 1000) := by omega
    unfold productionFetch productionTranslate debugFetch debugTranslate
      expressApp expressTranslate
    simp [mkTranslateReq, ht0, hl, hk, hnl, HandlerResult.status]

/-- C6 witness: a 1001-character text is rejected as amended, and a
1000-character text passes in all three variants. -/
theorem C6_witness :
    (productionFetch (mkTranslateReq longText1001 "es") keyEnv
        (.success "ok")).status = 400 ∧
    (debugFetch (mkTranslateReq longText1001 "es") keyEnv
        (.success "ok")).errorCode = some "TEXT_TOO_LONG" ∧
    (debugFetch (mkTranslateReq longText1001 "es") keyEnv
        (.success "ok")).detailsField =
      some ("Text length: " ++ toString longText1001.length ++
        ", Max: 1000 characters") ∧
    (productionFetch (mkTranslateReq text1000 "es") keyEnv
        (.success "ok")).status = 200 ∧
    (debugFetch (mkTranslateReq text1000 "es") keyEnv
        (.success "ok")).status = 200 ∧
    (expressApp (mkTranslateReq text1000 "es") keyEnv
        (.success "ok")).status = 200 :=
  ⟨(C6_too_long_amended longText1001 "es" keyEnv (.success "ok") (by decide)
      (by decide) (by decide)).1,
   ((C6_too_long_amended longText1001 "es" keyEnv (.success "ok") (by decide)
      (by decide) (by decide)).2.2.2.2.2.2.1 (by decide)).2.1,
   ((C6_too_long_amended longText1001 "es" keyEnv (.success "ok") (by decide)
      (by decide) (by decide)).2.2.2.2.2.2.1 (by decide)).2.2,
   ((C6_too_long_amended longText1001 "es" keyEnv (.success "ok") (by decide)
      (by decide) (by decide)).2.2.2.2.2.2.2 text1000 "ok" (by decide)
      (by decide) (by decide)).1,
   ((C6_too_long_amended longText1001 "es" keyEnv (.success "ok") (by decide)
      (by decide) (by decide)).2.2.2.2.2.2.2 text1000 "ok" (by decide)
      (by decide) (by decide)).2.1,
   ((C6_too_long_amended longText1001 "es" keyEnv (.success "ok") (by decide)
      (by decide) (by decide)).2.2.2.2.2.2.2 text1000 "ok" (by decide)
      (by decide) (by decide)).2.2⟩

/-- C4 counterexample: the variants are not response-equivalent: on a
valid request with targetLanguage "vi" the workers resolve "Vietnamese"
while the Express server (whose table lacks "vi") echoes "vi"; and on a
quota-indicating provider failure the debug worker answers 429 while the
production worker answers 500. -/
theorem C4_counterexample :
    (productionFetch (mkTranslateReq "Hello" "vi") keyEnv
        (.success "Chao ban")).successTargetLanguage = some "Vietnamese" ∧
    (debugFetch (mkTranslateReq "Hello" "vi") keyEnv
        (.success "Chao ban")).successTargetLanguage = some "Vietnamese" ∧
    (expressApp (mkTranslateReq "Hello" "vi") keyEnv
        (.success "Chao ban")).successTargetLanguage = some "vi" ∧
    (some "Vietnamese" : Option String) ≠ some "vi" ∧
    (debugFetch (mkTranslateReq "Hello" "es") keyEnv
        (.generateFailure "quota exceeded")).status = 429 ∧
    (productionFetch (mkTranslateReq "Hello" "es") keyEnv
        (.generateFailure "quota exceeded")).status = 500 := by
  decide

/-- C4 amended: the three variants agree exactly on the validation-failure
statuses (400 for missing fields, 400 for over-long text) and, whenever
the two language tables resolve the targetLanguage identically, on
successful translations: same 200 status and identical translation,
sourceText and targetLanguage fields (the debug worker's extra
processingTime aside).  They do not agree elsewhere: parse failures,
missing-credential handling, quota mapping and the prompt's whitespace
differ per C1, C2, C3 and C5. -/
theorem C4_variants_agreement_amended (t l g : String) (env : Env)
    (ht : truthy (some t) = true) (hl : truthy (some l) = true)
    (hlen : t.length ≤ 1000) (hk : truthy env.GEMINI_API_KEY = true)
    (hres : resolveLang workerLanguageNames l = resolveLang serverLanguageNames l) :
    (productionFetch (mkTranslateReq t l) env (.success g)).resp =
      (debugFetch (mkTranslateReq t l) env (.success g)).resp ∧
    (productionFetch (mkTranslateReq t l) env (.success g)).resp =
      (expressApp (mkTranslateReq t l) env (.success g)).resp ∧
    (productionFetch (mkTranslateReq t l) env (.success g)).status = 200 ∧
    (∀ b : TranslateBody, ∀ provider : ProviderBehavior,
      truthy b.text = false ∨ truthy b.targetLanguage = false →
      (productionFetch
          { method := "POST", path := "/translate", body := .parsed b }
          env provider).status = 400 ∧
      (debugFetch
          { method := "POST", path := "/translate", body := .parsed b }
          env provider).status = 400 ∧
      (expressApp
          { method := "POST", path := "/translate", body := .parsed b }
          env provider).status = 400) ∧
    (∀ t2 : String, ∀ provider : ProviderBehavior,
      truthy (some t2) = true → t2.length > 1000 →
      (productionFetch (mkTranslateReq t2 l) env provider).status = 400 ∧
      (debugFetch (mkTranslateReq t2 l) env provider).status = 400 ∧
      (expressApp (mkTranslateReq t2 l) env provider).status = 400) := by
  have hnl : ¬(t.length > 1000) := by omega
  refine ⟨?_, ?_, ?_, fun b provider hf => ?_, fun t2 provider ht2 hlen2 => ?_⟩
  · unfold productionFetch productionTranslate debugFetch debugTranslate
    simp [mkTranslateReq, ht, hl, hk, hnl]
  · unfold productionFetch productionTranslate expressApp expressTranslate
    simp [mkTranslateReq, ht, hl, hnl, hres]
  · unfold productionFetch productionTranslate
    simp [mkTranslateReq, ht, hl, hnl, HandlerResult.status]
  · unfold productionFetch productionTranslate debugFetch debugTranslate
      expressApp expressTranslate
    rcases hf with hf | hf <;>
      simp [mkTranslateReq, hf, hk, HandlerResult.status]
  · unfold productionFetch productionTranslate debugFetch debugTranslate
      expressApp expressTranslate
    simp [mkTranslateReq, ht2, hl, hk, hlen2, HandlerResult.status]

/-- C4 witness: on a valid "es" request (where the two tables agree) the
three variants produce identical 200 responses, and the 400 validation
statuses coincide at concrete failing inputs. -/
theorem C4_witness :
    (productionFetch (mkTranslateReq "Hello" "es") keyEnv (.success " Hola ")).resp =
      (debugFetch (mkTranslateReq "Hello" "es") keyEnv (.success " Hola ")).resp ∧
    (productionFetch (mkTranslateReq "Hello" "es") keyEnv (.success " Hola ")).resp =
      (expressApp (mkTranslateReq "Hello" "es") keyEnv (.success " Hola ")).resp ∧
    (productionFetch missingFieldReq keyEnv (.success "x")).status = 400 ∧
    (expressApp (mkTranslateReq longText1001 "es") keyEnv (.success "x")).status =
      400 :=
  ⟨(C4_variants_agreement_amended "Hello" "es" " Hola " keyEnv (by decide)
      (by decide) (by decide) (by decide) (by decide)).1,
   (C4_variants_agreement_amended "Hello" "es" " Hola " keyEnv (by decide)
      (by decide) (by decide) (by decide) (by decide)).2.1,
   ((C4_variants_agreement_amended "Hello" "es" " Hola " keyEnv (by decide)
      (by decide) (by decide) (by decide) (by decide)).2.2.2.1
      { text := some "Hello", targetLanguage := none } (.success "x")
      (Or.inr (by decide))).1,
   ((C4_variants_agreement_amended "Hello" "es" " Hola " keyEnv (by decide)
      (by decide) (by decide) (by decide) (by decide)).2.2.2.2
      longText1001 (.success "x") (by decide) (by decide)).2.2⟩
